import Mathlib

/-
Shallow embedding of the RA8875 resistive touch-panel subsystem
(RA8875_Touch.cpp): calibration solver, coordinate transform, public
readable query, matrix installation, watchdog ticker, and the trimmed
noise filter.  Machine `int`/`int32_t` values are modelled as `Int`;
C integer division (truncation toward zero) is `Int.tdiv`.
-/

/-- Return codes, from DisplayDefs.h `RetCode_t`. -/
inductive RetCode
  | noerror
  | bad_parameter
  | file_not_found
  | not_bmp_format
  | not_ico_format
  | not_supported_format
  | image_too_big
  | not_enough_ram
  | touch_cal_timeout
  | external_abort
deriving DecidableEq

/-- Touch codes, from DisplayDefs.h `TouchCode_t`. -/
inductive TouchCode
  | no_touch
  | touch
  | held
  | release
  | no_cal
deriving DecidableEq

/-- x,y pair, from DisplayDefs.h `point_t` (loc_t = int16_t, modelled as Int). -/
@[ext]
structure point_t where
  x : Int
  y : Int
deriving DecidableEq

/-- Calibration matrix, from DisplayDefs.h `tpMatrix_t` (all fields int32_t). -/
@[ext]
structure tpMatrix_t where
  An : Int
  Bn : Int
  Cn : Int
  Dn : Int
  En : Int
  Fn : Int
  Divider : Int
deriving DecidableEq

/-- Result of `TouchPanelComputeCalibration`: the returned code, the active
matrix member `tpMatrix` after the call, the `touchState` member after the
call, and what (if anything) was copied to the caller's `matrixPtr`. -/
structure ComputeResult where
  ret : RetCode
  tpMatrix : tpMatrix_t
  touchState : TouchCode
  written : Option tpMatrix_t
deriving DecidableEq

/-- The Divider determinant, first assignment in `TouchPanelComputeCalibration`
(RA8875_Touch.cpp lines 609-610). -/
def computeDivider (s0 s1 s2 : point_t) : Int :=
  ((s0.x - s2.x) * (s1.y - s2.y)) - ((s1.x - s2.x) * (s0.y - s2.y))

/-- The matrix assigned field by field in the success branch of
`TouchPanelComputeCalibration` (RA8875_Touch.cpp lines 615-633). -/
def calMatrix (d0 d1 d2 s0 s1 s2 : point_t) : tpMatrix_t :=
  { An := ((d0.x - d2.x) * (s1.y - s2.y)) - ((d1.x - d2.x) * (s0.y - s2.y))
    Bn := ((s0.x - s2.x) * (d1.x - d2.x)) - ((d0.x - d2.x) * (s1.x - s2.x))
    Cn := (s2.x * d1.x - s1.x * d2.x) * s0.y +
          (s0.x * d2.x - s2.x * d0.x) * s1.y +
          (s1.x * d0.x - s0.x * d1.x) * s2.y
    Dn := ((d0.y - d2.y) * (s1.y - s2.y)) - ((d1.y - d2.y) * (s0.y - s2.y))
    En := ((s0.x - s2.x) * (d1.y - d2.y)) - ((d0.y - d2.y) * (s1.x - s2.x))
    Fn := (s2.x * d1.y - s1.x * d2.y) * s0.y +
          (s0.x * d2.y - s2.x * d0.y) * s1.y +
          (s1.x * d0.y - s0.x * d1.y) * s2.y
    Divider := computeDivider s0 s1 s2 }

/-- `RA8875::TouchPanelComputeCalibration` (RA8875_Touch.cpp lines 605-639).
`d0 d1 d2` are `displayPtr[0..2]`, `s0 s1 s2` are `screenPtr[0..2]`,
`tp` and `ts` are the member `tpMatrix` and `touchState` before the call,
`ptrSupplied` is whether `matrixPtr` is non-null.  Note the member
`tpMatrix.Divider` is assigned before the zero test, in both branches. -/
def touchPanelComputeCalibration (d0 d1 d2 s0 s1 s2 : point_t) (tp : tpMatrix_t)
    (ts : TouchCode) (ptrSupplied : Bool) : ComputeResult :=
  let div := computeDivider s0 s1 s2
  if div = 0 then
    ⟨RetCode.bad_parameter, { tp with Divider := div }, ts, none⟩
  else
    let m := calMatrix d0 d1 d2 s0 s1 s2
    ⟨RetCode.noerror, m, TouchCode.no_touch, if ptrSupplied then some m else none⟩

/-- The integer affine transform applied inside `TouchPanelReadable`
(RA8875_Touch.cpp lines 255-260): all terms are summed before the single
truncating division by `Divider`. -/
def applyMatrix (m : tpMatrix_t) (xs ys : Int) : point_t :=
  ⟨Int.tdiv (m.An * xs + m.Bn * ys + m.Cn) m.Divider,
   Int.tdiv (m.Dn * xs + m.En * ys + m.Fn) m.Divider⟩

/-- State touched by `TouchPanelReadable` in resistive (TP_RES) mode: the
active matrix, the pending-event flag, channel 0 of `touchInfo`
(code / id / coordinates) and `numberOfTouchPoints`. -/
structure ReadableState where
  tpMatrix : tpMatrix_t
  panelTouched : Bool
  touchInfo0code : TouchCode
  touchInfo0id : Nat
  touchInfo0coords : point_t
  numberOfTouchPoints : Nat
deriving DecidableEq

/-- `RA8875::TouchPanelReadable` (RA8875_Touch.cpp lines 236-281), TP_RES
mode.  The hardware interaction of the inner `TouchPanelA2DFiltered` call
is abstracted by its outcome: `a2dCode` is the code it returns and
`a2dX`/`a2dY` the values left in the local `a2dX`/`a2dY` afterwards.
`ptrSupplied` is whether the caller passed a non-null `TouchPoint`.
Returns the new state, the returned code, and the point written through
the caller's pointer (if any). -/
def touchPanelReadable (st : ReadableState) (a2dCode : TouchCode) (a2dX a2dY : Int)
    (ptrSupplied : Bool) : ReadableState × TouchCode × Option point_t :=
  let st0 := { st with touchInfo0id := 0 }
  let stts :=
    if a2dCode ≠ TouchCode.no_touch then
      let st1 := { st0 with panelTouched := true, numberOfTouchPoints := 1 }
      if st.tpMatrix.Divider ≠ 0 then
        ({ st1 with touchInfo0coords := applyMatrix st.tpMatrix a2dX a2dY,
                    touchInfo0code := a2dCode }, a2dCode)
      else
        ({ st1 with touchInfo0code := TouchCode.no_cal }, TouchCode.no_cal)
    else
      ({ st0 with numberOfTouchPoints := 0, touchInfo0code := a2dCode }, a2dCode)
  let st2 := stts.1
  let ts := stts.2
  if st2.panelTouched then
    let st3 := { st2 with panelTouched := false }
    if ptrSupplied then (st3, st2.touchInfo0code, some st2.touchInfo0coords)
    else (st3, TouchCode.touch, none)
  else
    (st2, ts, none)

/-- `RA8875::TouchPanelSetMatrix` (RA8875_Touch.cpp lines 304-311).
`arg = none` models a null `matrixPtr`.  Returns the code, the active
matrix member and the `touchState` member after the call. -/
def touchPanelSetMatrix (arg : Option tpMatrix_t) (tp : tpMatrix_t) (ts : TouchCode) :
    RetCode × tpMatrix_t × TouchCode :=
  match arg with
  | none => (RetCode.bad_parameter, tp, ts)
  | some m =>
    if m.Divider = 0 then (RetCode.bad_parameter, tp, ts)
    else (RetCode.noerror, m, TouchCode.no_touch)

/-- `NOTOUCH_TIMEOUT_uS` (RA8875_Touch.cpp line 8). -/
def NOTOUCH_TIMEOUT_uS : Int := 100000

/-- `RA8875::_TouchTicker` (RA8875_Touch.cpp lines 330-340).  `elapsed` is
`touchTimer.read_us()`.  Returns the new `touchState`, the new
`touchSample`, and whether the timer was reset. -/
def touchTicker (ts : TouchCode) (sample : Nat) (elapsed : Int) :
    TouchCode × Nat × Bool :=
  if elapsed > NOTOUCH_TIMEOUT_uS then
    (if ts = TouchCode.held then TouchCode.release else TouchCode.no_touch, 0, true)
  else
    (ts, sample, false)

/-- `TPBUFSIZE` (RA8875.h line 2735). -/
def TPBUFSIZE : Nat := 16

/-- One step of the inner loop of `InsertionSort` (RA8875_Touch.cpp lines
313-327): place `t` into the already-sorted list, after the elements that
are not greater than it. -/
def insertOrdered (t : Int) : List Int → List Int
  | [] => [t]
  | a :: rest => if a > t then t :: a :: rest else a :: insertOrdered t rest

/-- `InsertionSort` (RA8875_Touch.cpp lines 313-327) as a function on the
list of buffer entries. -/
def insertionSort (l : List Int) : List Int :=
  l.foldl (fun acc x => insertOrdered x acc) []

/-- State touched by `TouchPanelA2DFiltered`: the static sample buffers and
last filtered pair, plus the members `touchSample` and `touchState`. -/
structure FilterState where
  xbuf : List Int
  ybuf : List Int
  touchSample : Nat
  touchState : TouchCode
  lastX : Int
  lastY : Int
deriving DecidableEq

/-- The batch average of `TouchPanelA2DFiltered` (RA8875_Touch.cpp lines
399-410): sum the sorted entries from index `TPBUFSIZE/4 - 1` up to (and
not including) `TPBUFSIZE - TPBUFSIZE/4`, then scale by `(float)2/TPBUFSIZE`
and truncate to int.  The float product is exact for the 10-bit sample
magnitudes involved, so it equals truncating division of `2 * sum` by
`TPBUFSIZE`. -/
def filterAverage (buf : List Int) : Int :=
  let sorted := insertionSort buf
  let mid := (sorted.drop (TPBUFSIZE / 4 - 1)).take
               ((TPBUFSIZE - TPBUFSIZE / 4) - (TPBUFSIZE / 4 - 1))
  Int.tdiv (mid.sum * 2) (TPBUFSIZE : Int)

/-- `RA8875::TouchPanelA2DFiltered` (RA8875_Touch.cpp lines 356-441).  The
hardware is abstracted by `pending`: `some (rx, ry)` when the TP interrupt
flag is set and `(rx, ry)` is the raw sample read from the registers,
`none` when no interrupt is pending.  Returns the new state, the returned
code, and the pair written through the caller's `x`/`y` pointers (if any). -/
def touchPanelA2DFiltered (st : FilterState) (pending : Option (Int × Int)) :
    FilterState × TouchCode × Option (Int × Int) :=
  match pending with
  | some (rx, ry) =>
    let ybuf1 := st.ybuf.set st.touchSample ry
    let xbuf1 := st.xbuf.set st.touchSample rx
    let n := st.touchSample + 1
    if n = TPBUFSIZE then
      let newY := filterAverage ybuf1
      let newX := filterAverage xbuf1
      let ts1 := if st.touchState = TouchCode.touch ∨ st.touchState = TouchCode.held
                 then TouchCode.held else TouchCode.touch
      (⟨xbuf1, ybuf1, 0, ts1, newX, newY⟩, ts1, some (newX, newY))
    else
      if st.touchState = TouchCode.touch ∨ st.touchState = TouchCode.held then
        (⟨xbuf1, ybuf1, n, TouchCode.held, st.lastX, st.lastY⟩,
         TouchCode.held, some (st.lastX, st.lastY))
      else
        (⟨xbuf1, ybuf1, n, st.touchState, st.lastX, st.lastY⟩, st.touchState, none)
  | none =>
    if st.touchState = TouchCode.touch ∨ st.touchState = TouchCode.held then
      ({ st with touchState := TouchCode.held },
       TouchCode.held, some (st.lastX, st.lastY))
    else if st.touchState = TouchCode.release then
      ({ st with touchState := TouchCode.no_touch },
       TouchCode.release, some (st.lastX, st.lastY))
    else
      (st, st.touchState, none)

/-- The filter state at `TouchPanelInit`: empty buffers, `touchSample = 0`. -/
def initFilterState : FilterState :=
  ⟨List.replicate TPBUFSIZE 0, List.replicate TPBUFSIZE 0, 0, TouchCode.no_touch, 0, 0⟩

/-- Run `TouchPanelA2DFiltered` over a sequence of hardware outcomes,
returning the final state together with the code and written pair of the
last call. -/
def feedFilter : FilterState → List (Option (Int × Int)) →
    FilterState × TouchCode × Option (Int × Int)
  | st, [] => (st, st.touchState, none)
  | st, [e] => touchPanelA2DFiltered st e
  | st, e :: e2 :: rest => feedFilter (touchPanelA2DFiltered st e).1 (e2 :: rest)

/-- Environment of a `TouchPanelCalibrate` run (RA8875_Touch.cpp lines
111-178).  Each hardware/timer observation consumes one index `n`:
`clock n` is the value of `timeout.read()` at observation `n` (monotone in
a real run), `touching n` is whether `TouchPanelA2DFiltered` reports a
non-`no_touch` code, `abortSig n` is whether the idle callback (when
registered) answers `external_abort`, and `sampleAt n` is the filtered
sample pair left in the locals `x`,`y`. -/
structure CalEnv where
  clock : Nat → Int
  touching : Nat → Bool
  abortSig : Nat → Bool
  sampleAt : Nat → point_t

/-- One of the `while (... && timeout.read() < maxwait_s)` wait loops of
`TouchPanelCalibrate`.  The loop keeps running while `touching` equals
`cont` and the timer has not reached `maxwait`; the body yields to the
idle callback, which may abort.  Returns `some (n, aborted)` with the
observation counter after the exit, or `none` when fuel runs out. -/
def waitLoop (env : CalEnv) (maxwait : Int) (cont : Bool) :
    Nat → Nat → Option (Nat × Bool)
  | 0, _ => none
  | fuel + 1, n =>
    if env.touching n ≠ cont then some (n + 1, false)
    else if env.clock (n + 1) ≥ maxwait then some (n + 2, false)
    else if env.abortSig (n + 2) then some (n + 3, true)
    else waitLoop env maxwait cont fuel (n + 3)

/-- The fixed settling loop of `TouchPanelCalibrate` (lines 165-172): 100
iterations of `wait_ms(20)` each yielding to the idle callback. -/
def settleLoop (env : CalEnv) : Nat → Nat → Nat × Bool
  | 0, n => (n, false)
  | t + 1, n => if env.abortSig n then (n + 1, true) else settleLoop env t (n + 1)

/-- The `for (int i=0; i<3; i++)` target loop of `TouchPanelCalibrate`
(lines 138-173): for each target, wait until a touch registers, record
the filtered sample, wait for the release, then settle.  Accumulates the
recorded `pSample` points. -/
def targetsLoop (env : CalEnv) (maxwait : Int) (fuel : Nat) :
    Nat → Nat → List point_t → Option (Nat × Bool × List point_t)
  | 0, n, acc => some (n, false, acc)
  | i + 1, n, acc =>
    match waitLoop env maxwait false fuel n with
    | none => none
    | some (n1, true) => some (n1, true, acc)
    | some (n1, false) =>
      match waitLoop env maxwait true fuel n1 with
      | none => none
      | some (n2, true) => some (n2, true, acc)
      | some (n2, false) =>
        match settleLoop env 100 n2 with
        | (n3, true) => some (n3, true, acc)
        | (n3, false) => targetsLoop env maxwait fuel i n3 (acc ++ [env.sampleAt n1])

/-- How a `TouchPanelCalibrate` run ends before the solver: aborted by the
idle callback, stopped by the final timeout test, or completed with the
three recorded raw samples. -/
inductive CalExit
  | aborted
  | timedOut
  | completed (samples : List point_t)
deriving DecidableEq

/-- The control skeleton of `TouchPanelCalibrate` (lines 111-178): the
initial wait for no-touch, the three-target loop, then the final
`timeout.read() >= maxwait_s` test (at the returned observation index). -/
def calSession (env : CalEnv) (maxwait : Int) (fuel : Nat) : Option (CalExit × Nat) :=
  match waitLoop env maxwait true fuel 0 with
  | none => none
  | some (n1, true) => some (CalExit.aborted, n1)
  | some (n1, false) =>
    match targetsLoop env maxwait fuel 3 n1 [] with
    | none => none
    | some (n2, true, _) => some (CalExit.aborted, n2)
    | some (n2, false, samples) =>
      if env.clock n2 ≥ maxwait then some (CalExit.timedOut, n2)
      else some (CalExit.completed samples, n2)

/-- `RA8875::TouchPanelCalibrate(msg, matrix, maxwait_s)` (lines 111-178):
runs the session and, only when every wait finished inside the budget,
invokes `TouchPanelComputeCalibration` on the three fixed display targets
(lines 131-136, for a `w × h` display) and the three recorded samples.
Returns the code and the active `tpMatrix` member after the call. -/
def touchPanelCalibrate (env : CalEnv) (maxwait : Int) (fuel : Nat) (w h : Int)
    (tp0 : tpMatrix_t) (ts0 : TouchCode) : Option (RetCode × tpMatrix_t) :=
  match calSession env maxwait fuel with
  | none => none
  | some (CalExit.aborted, _) => some (RetCode.external_abort, tp0)
  | some (CalExit.timedOut, _) => some (RetCode.touch_cal_timeout, tp0)
  | some (CalExit.completed samples, _) =>
    match samples with
    | [s0, s1, s2] =>
      let out := touchPanelComputeCalibration
        ⟨50, 50⟩ ⟨w - 50, Int.tdiv h 2⟩ ⟨Int.tdiv w 2, h - 50⟩ s0 s1 s2 tp0 ts0 true
      some (out.ret, out.tpMatrix)
    | _ => none

/-- An environment in which the panel is never touched and the timer is
already past the budget: every wait step exceeds `maxwait = 5`. -/
def timeoutEnv : CalEnv :=
  ⟨fun _ => 6, fun _ => false, fun _ => false, fun _ => ⟨0, 0⟩⟩

/-- Modelled from the spec words for the Noise Filter, for comparison with
`filterAverage`: sort ascending, discard the lowest `TPBUFSIZE/4` and the
highest `TPBUFSIZE/4` entries, and average the remaining middle half (sum
divided by the count of remaining entries). -/
def trimmedMeanSpec (buf : List Int) : Int :=
  let sorted := insertionSort buf
  let mid := (sorted.drop (TPBUFSIZE / 4)).take (TPBUFSIZE - 2 * (TPBUFSIZE / 4))
  Int.tdiv mid.sum (mid.length : Int)

/-- Truncating division is exact when the dividend is a multiple of the
(nonzero) divisor. -/
theorem tdiv_exact (a b q : Int) (hb : b ≠ 0) (h : a = q * b) : Int.tdiv a b = q := by
  subst h
  exact Int.mul_tdiv_cancel q hb

/-- The solved matrix maps each raw anchor back to its display target. -/
theorem applyMatrix_calMatrix (d0 d1 d2 s0 s1 s2 : point_t)
    (h : computeDivider s0 s1 s2 ≠ 0) :
    applyMatrix (calMatrix d0 d1 d2 s0 s1 s2) s0.x s0.y = d0 ∧
    applyMatrix (calMatrix d0 d1 d2 s0 s1 s2) s1.x s1.y = d1 ∧
    applyMatrix (calMatrix d0 d1 d2 s0 s1 s2) s2.x s2.y = d2 := by
  unfold computeDivider at h
  refine ⟨?_, ?_, ?_⟩ <;>
    refine point_t.ext ?_ ?_ <;>
    · show Int.tdiv _ _ = _
      unfold calMatrix computeDivider
      exact tdiv_exact _ _ _ h (by ring)

/-- C1 counterexample: with the matrix (1,2,3,4,5,6,7) installed, the
collinear raw samples (0,0),(1,1),(2,2) make `TouchPanelComputeCalibration`
return `bad_parameter` and write nothing to the caller, but the active
matrix does not stay unchanged: its `Divider` field is overwritten with 0. -/
theorem c1_counterexample :
    (touchPanelComputeCalibration ⟨0,0⟩ ⟨0,0⟩ ⟨0,0⟩ ⟨0,0⟩ ⟨1,1⟩ ⟨2,2⟩
        ⟨1,2,3,4,5,6,7⟩ TouchCode.held true).ret = RetCode.bad_parameter ∧
    (touchPanelComputeCalibration ⟨0,0⟩ ⟨0,0⟩ ⟨0,0⟩ ⟨0,0⟩ ⟨1,1⟩ ⟨2,2⟩
        ⟨1,2,3,4,5,6,7⟩ TouchCode.held true).tpMatrix ≠ ⟨1,2,3,4,5,6,7⟩ := by
  decide

/-- C1 (amended): for every collinear 3-point input (computed Divider = 0),
`TouchPanelComputeCalibration` returns `bad_parameter`, writes nothing to
the caller's output matrix, leaves `An..Fn` and the touch state unchanged,
but overwrites the active matrix's `Divider` field with 0. -/
theorem c1_amended (d0 d1 d2 s0 s1 s2 : point_t) (tp : tpMatrix_t) (ts : TouchCode)
    (sup : Bool) (h : computeDivider s0 s1 s2 = 0) :
    (touchPanelComputeCalibration d0 d1 d2 s0 s1 s2 tp ts sup).ret
        = RetCode.bad_parameter ∧
    (touchPanelComputeCalibration d0 d1 d2 s0 s1 s2 tp ts sup).written = none ∧
    (touchPanelComputeCalibration d0 d1 d2 s0 s1 s2 tp ts sup).tpMatrix
        = { tp with Divider := 0 } ∧
    (touchPanelComputeCalibration d0 d1 d2 s0 s1 s2 tp ts sup).touchState = ts := by
  simp [touchPanelComputeCalibration, h]

/-- C1 witness: the amended statement at the collinear samples
(3,3),(5,5),(9,9) with the matrix (9,8,7,6,5,4,3) installed. -/
theorem c1_witness :
    (touchPanelComputeCalibration ⟨10,10⟩ ⟨20,20⟩ ⟨30,30⟩ ⟨3,3⟩ ⟨5,5⟩ ⟨9,9⟩
        ⟨9,8,7,6,5,4,3⟩ TouchCode.touch false).ret = RetCode.bad_parameter ∧
    (touchPanelComputeCalibration ⟨10,10⟩ ⟨20,20⟩ ⟨30,30⟩ ⟨3,3⟩ ⟨5,5⟩ ⟨9,9⟩
        ⟨9,8,7,6,5,4,3⟩ TouchCode.touch false).written = none ∧
    (touchPanelComputeCalibration ⟨10,10⟩ ⟨20,20⟩ ⟨30,30⟩ ⟨3,3⟩ ⟨5,5⟩ ⟨9,9⟩
        ⟨9,8,7,6,5,4,3⟩ TouchCode.touch false).tpMatrix = ⟨9,8,7,6,5,4,0⟩ ∧
    (touchPanelComputeCalibration ⟨10,10⟩ ⟨20,20⟩ ⟨30,30⟩ ⟨3,3⟩ ⟨5,5⟩ ⟨9,9⟩
        ⟨9,8,7,6,5,4,3⟩ TouchCode.touch false).touchState = TouchCode.touch :=
  c1_amended ⟨10,10⟩ ⟨20,20⟩ ⟨30,30⟩ ⟨3,3⟩ ⟨5,5⟩ ⟨9,9⟩ ⟨9,8,7,6,5,4,3⟩
    TouchCode.touch false (by decide)

/-- C2: for every non-collinear 3-point calibration input, applying the
computed matrix with the truncating integer transform to each of the three
raw sample points reproduces the corresponding display target exactly; in
particular targets (50,50),(430,150),(225,250) against raw samples
(100,100),(900,300),(500,600) give a nonzero Divider and exact mappings. -/
theorem c2_roundtrip :
    (∀ (d0 d1 d2 s0 s1 s2 : point_t) (tp : tpMatrix_t) (ts : TouchCode) (sup : Bool),
      computeDivider s0 s1 s2 ≠ 0 →
      (applyMatrix (touchPanelComputeCalibration d0 d1 d2 s0 s1 s2 tp ts sup).tpMatrix
          s0.x s0.y = d0 ∧
       applyMatrix (touchPanelComputeCalibration d0 d1 d2 s0 s1 s2 tp ts sup).tpMatrix
          s1.x s1.y = d1 ∧
       applyMatrix (touchPanelComputeCalibration d0 d1 d2 s0 s1 s2 tp ts sup).tpMatrix
          s2.x s2.y = d2)) ∧
    (computeDivider ⟨100,100⟩ ⟨900,300⟩ ⟨500,600⟩ ≠ 0 ∧
     (touchPanelComputeCalibration ⟨50,50⟩ ⟨430,150⟩ ⟨225,250⟩
        ⟨100,100⟩ ⟨900,300⟩ ⟨500,600⟩ ⟨0,0,0,0,0,0,0⟩ TouchCode.no_touch true).ret
        = RetCode.noerror ∧
     applyMatrix (touchPanelComputeCalibration ⟨50,50⟩ ⟨430,150⟩ ⟨225,250⟩
        ⟨100,100⟩ ⟨900,300⟩ ⟨500,600⟩ ⟨0,0,0,0,0,0,0⟩ TouchCode.no_touch true).tpMatrix
        100 100 = ⟨50,50⟩ ∧
     applyMatrix (touchPanelComputeCalibration ⟨50,50⟩ ⟨430,150⟩ ⟨225,250⟩
        ⟨100,100⟩ ⟨900,300⟩ ⟨500,600⟩ ⟨0,0,0,0,0,0,0⟩ TouchCode.no_touch true).tpMatrix
        900 300 = ⟨430,150⟩ ∧
     applyMatrix (touchPanelComputeCalibration ⟨50,50⟩ ⟨430,150⟩ ⟨225,250⟩
        ⟨100,100⟩ ⟨900,300⟩ ⟨500,600⟩ ⟨0,0,0,0,0,0,0⟩ TouchCode.no_touch true).tpMatrix
        500 600 = ⟨225,250⟩) := by
  constructor
  · intro d0 d1 d2 s0 s1 s2 tp ts sup h
    have hm : (touchPanelComputeCalibration d0 d1 d2 s0 s1 s2 tp ts sup).tpMatrix
        = calMatrix d0 d1 d2 s0 s1 s2 := by
      simp [touchPanelComputeCalibration, h]
    rw [hm]
    exact applyMatrix_calMatrix d0 d1 d2 s0 s1 s2 h
  · decide

/-- C2 witness: the round-trip at the first anchor of the concrete
end-to-end scenario, obtained from the universal statement. -/
theorem c2_witness :
    applyMatrix (touchPanelComputeCalibration ⟨50,50⟩ ⟨430,150⟩ ⟨225,250⟩
      ⟨100,100⟩ ⟨900,300⟩ ⟨500,600⟩ ⟨0,0,0,0,0,0,0⟩ TouchCode.no_touch true).tpMatrix
      100 100 = ⟨50,50⟩ :=
  (c2_roundtrip.1 ⟨50,50⟩ ⟨430,150⟩ ⟨225,250⟩ ⟨100,100⟩ ⟨900,300⟩ ⟨500,600⟩
    ⟨0,0,0,0,0,0,0⟩ TouchCode.no_touch true (by decide)).1

/-- C3 (code bug): the averaging loop of `TouchPanelA2DFiltered` starts at
sorted index `TPBUFSIZE/4 - 1`, so it sums 9 entries (dropping only the 3
lowest and the 4 highest) yet still scales by `2/TPBUFSIZE` (divide by 8),
contradicting the code's own comment and the spec's trimmed mean.  A full
batch of 16 samples all equal to 8 yields 9, where the trimmed mean of the
middle half is 8. -/
theorem c3_filter_bug :
    filterAverage (List.replicate TPBUFSIZE 8) = 9 ∧
    trimmedMeanSpec (List.replicate TPBUFSIZE 8) = 8 ∧
    (feedFilter initFilterState (List.replicate TPBUFSIZE (some (8, 8)))).2.2
      = some (9, 9) ∧
    (9 : Int) ≠ 8 := by
  decide

/-- C4 counterexample: with an installed matrix whose Divider is 0 and the
A2D filter reporting a touch (so a touch event becomes pending), a call to
`TouchPanelReadable` with a null point pointer returns `touch`, not
`no_cal`; and a call with a pointer supplied writes the stale channel-0
coordinates (7,9) to the caller. -/
theorem c4_counterexample :
    (touchPanelReadable ⟨⟨0,0,0,0,0,0,0⟩, false, TouchCode.no_touch, 0, ⟨7,9⟩, 0⟩
        TouchCode.touch 10 20 false).2.1 = TouchCode.touch ∧
    TouchCode.touch ≠ TouchCode.no_cal ∧
    (touchPanelReadable ⟨⟨0,0,0,0,0,0,0⟩, false, TouchCode.no_touch, 0, ⟨7,9⟩, 0⟩
        TouchCode.touch 10 20 true).2.2 = some ⟨7,9⟩ := by
  decide

/-- C4 (amended): whenever the active matrix has Divider = 0 and the A2D
filter reports a non-`no_touch` code, a `TouchPanelReadable` call with a
point pointer supplied returns `no_cal` but copies the previously stored
channel-0 coordinates through the pointer, and a call with a null pointer
returns `touch`. -/
theorem c4_amended (st : ReadableState) (code : TouchCode) (ax ay : Int)
    (hdiv : st.tpMatrix.Divider = 0) (hcode : code ≠ TouchCode.no_touch) :
    (touchPanelReadable st code ax ay true).2.1 = TouchCode.no_cal ∧
    (touchPanelReadable st code ax ay true).2.2 = some st.touchInfo0coords ∧
    (touchPanelReadable st code ax ay false).2.1 = TouchCode.touch := by
  simp [touchPanelReadable, hdiv, hcode]

/-- C4 witness: the amended statement at a concrete uncalibrated state. -/
theorem c4_witness :
    (touchPanelReadable ⟨⟨1,2,3,4,5,6,0⟩, false, TouchCode.held, 0, ⟨7,9⟩, 1⟩
        TouchCode.held 10 20 true).2.1 = TouchCode.no_cal ∧
    (touchPanelReadable ⟨⟨1,2,3,4,5,6,0⟩, false, TouchCode.held, 0, ⟨7,9⟩, 1⟩
        TouchCode.held 10 20 true).2.2 = some ⟨7,9⟩ ∧
    (touchPanelReadable ⟨⟨1,2,3,4,5,6,0⟩, false, TouchCode.held, 0, ⟨7,9⟩, 1⟩
        TouchCode.held 10 20 false).2.1 = TouchCode.touch :=
  c4_amended ⟨⟨1,2,3,4,5,6,0⟩, false, TouchCode.held, 0, ⟨7,9⟩, 1⟩
    TouchCode.held 10 20 (by decide) (by decide)

/-- C5 counterexample: from the state `touch` with 100001 microseconds of
inactivity, the watchdog check moves the state directly to `no_touch`,
without an intervening `release`. -/
theorem c5_counterexample :
    (touchTicker TouchCode.touch 5 100001).1 = TouchCode.no_touch ∧
    TouchCode.no_touch ≠ TouchCode.release := by
  decide

/-- C5 (amended): when a watchdog check sees more than 100,000 microseconds
without a new sample, it clears `touchSample`, resets the timer, and moves
`held` to `release` (with `release` moving to `no_touch` at a subsequent
expiring check); every state other than `held` moves directly to
`no_touch`. -/
theorem c5_amended (s : TouchCode) (n : Nat) (e e2 : Int)
    (h : e > NOTOUCH_TIMEOUT_uS) (h2 : e2 > NOTOUCH_TIMEOUT_uS) :
    touchTicker s n e
      = (if s = TouchCode.held then TouchCode.release else TouchCode.no_touch, 0, true) ∧
    (touchTicker (touchTicker TouchCode.held n e).1 0 e2).1 = TouchCode.no_touch := by
  constructor
  · simp [touchTicker, h]
  · simp [touchTicker, h, h2]

/-- C5 witness: the amended statement at state `held` and 100001
microseconds at both checks. -/
theorem c5_witness :
    touchTicker TouchCode.held 5 100001 = (TouchCode.release, 0, true) ∧
    (touchTicker (touchTicker TouchCode.held 5 100001).1 0 100001).1
      = TouchCode.no_touch :=
  c5_amended TouchCode.held 5 100001 100001 (by decide) (by decide)

/-- C6: if the state is `held` and a watchdog check sees more than the
100,000-microsecond idle threshold, the state becomes `release`, and a
subsequent expiring check moves it to `no_touch` — both transitions driven
by the ticker alone, with no new sample. -/
theorem c6_held_release_notouch (n : Nat) (e1 e2 : Int)
    (h1 : e1 > NOTOUCH_TIMEOUT_uS) (h2 : e2 > NOTOUCH_TIMEOUT_uS) :
    (touchTicker TouchCode.held n e1).1 = TouchCode.release ∧
    (touchTicker (touchTicker TouchCode.held n e1).1
        (touchTicker TouchCode.held n e1).2.1 e2).1 = TouchCode.no_touch := by
  constructor
  · simp [touchTicker, h1]
  · simp [touchTicker, h1, h2]

/-- C6 witness: the two ticker transitions at 100001 microseconds. -/
theorem c6_witness :
    (touchTicker TouchCode.held 7 100001).1 = TouchCode.release ∧
    (touchTicker (touchTicker TouchCode.held 7 100001).1
        (touchTicker TouchCode.held 7 100001).2.1 100001).1 = TouchCode.no_touch :=
  c6_held_release_notouch 7 100001 100001 (by decide) (by decide)

/-- C7: while the batch buffer will not fill on this call and the touch
state is `touch` or `held`, `TouchPanelA2DFiltered` writes the previous
completed batch's filtered pair to the caller and returns `held` — both
when a new raw sample arrives and when none is pending. -/
theorem c7_partial_buffer_reports_last (st : FilterState)
    (hts : st.touchState = TouchCode.touch ∨ st.touchState = TouchCode.held)
    (ev : Option (Int × Int))
    (hev : ev = none ∨ (∃ p, ev = some p ∧ st.touchSample + 1 ≠ TPBUFSIZE)) :
    (touchPanelA2DFiltered st ev).2.1 = TouchCode.held ∧
    (touchPanelA2DFiltered st ev).2.2 = some (st.lastX, st.lastY) := by
  rcases hev with hev | ⟨⟨rx, ry⟩, hev, hfull⟩
  · subst hev
    constructor <;> simp [touchPanelA2DFiltered, hts]
  · subst hev
    constructor <;> simp [touchPanelA2DFiltered, hfull, hts]

/-- C7 witness: a half-full buffer (8 of 16 samples) in state `held` with a
new sample pending reports the previous batch's pair (321, 654) and `held`. -/
theorem c7_witness :
    (touchPanelA2DFiltered
        ⟨List.replicate TPBUFSIZE 0, List.replicate TPBUFSIZE 0, 8,
         TouchCode.held, 321, 654⟩ (some (500, 501))).2.1 = TouchCode.held ∧
    (touchPanelA2DFiltered
        ⟨List.replicate TPBUFSIZE 0, List.replicate TPBUFSIZE 0, 8,
         TouchCode.held, 321, 654⟩ (some (500, 501))).2.2 = some (321, 654) :=
  c7_partial_buffer_reports_last
    ⟨List.replicate TPBUFSIZE 0, List.replicate TPBUFSIZE 0, 8,
     TouchCode.held, 321, 654⟩ (Or.inr rfl) (some (500, 501))
    (Or.inr ⟨(500, 501), rfl, by decide⟩)

/-- C8: in any terminating, non-aborted `TouchPanelCalibrate` session whose
timer is monotone, if the timer has reached the caller-supplied budget
`maxwait` at (or before) the final check, the session ends `timedOut` and
the call returns `touch_cal_timeout` with the previously active matrix
unchanged — the solver is never invoked. -/
theorem c8_timeout_no_matrix_change (env : CalEnv) (maxwait : Int) (fuel : Nat)
    (w h : Int) (tp0 : tpMatrix_t) (ts0 : TouchCode)
    (hmono : ∀ i j : Nat, i ≤ j → env.clock i ≤ env.clock j)
    (e : CalExit) (n : Nat)
    (hrun : calSession env maxwait fuel = some (e, n))
    (hab : e ≠ CalExit.aborted)
    (k : Nat) (hk : k ≤ n) (hclk : maxwait ≤ env.clock k) :
    e = CalExit.timedOut ∧
    touchPanelCalibrate env maxwait fuel w h tp0 ts0
      = some (RetCode.touch_cal_timeout, tp0) := by
  have he : e = CalExit.timedOut := by
    unfold calSession at hrun
    split at hrun
    · exact absurd hrun (by simp)
    · rw [Option.some_inj] at hrun
      exact absurd (congrArg Prod.fst hrun).symm hab
    · split at hrun
      · exact absurd hrun (by simp)
      · rw [Option.some_inj] at hrun
        exact absurd (congrArg Prod.fst hrun).symm hab
      · split at hrun
        · rw [Option.some_inj] at hrun
          exact (congrArg Prod.fst hrun).symm
        · rw [Option.some_inj] at hrun
          have hn := congrArg Prod.snd hrun
          simp only at hn
          rename_i hguard
          rw [hn] at hguard
          exact absurd (le_trans hclk (hmono k n hk)) hguard
  subst he
  refine ⟨rfl, ?_⟩
  unfold touchPanelCalibrate
  rw [hrun]

/-- C8 witness: in the never-touched environment whose timer already reads
6 against a budget of 5, the session times out and returns the prior
matrix (1,2,3,4,5,6,7) untouched. -/
theorem c8_witness :
    touchPanelCalibrate timeoutEnv 5 1 480 272 ⟨1,2,3,4,5,6,7⟩ TouchCode.no_touch
      = some (RetCode.touch_cal_timeout, ⟨1,2,3,4,5,6,7⟩) :=
  (c8_timeout_no_matrix_change timeoutEnv 5 1 480 272 ⟨1,2,3,4,5,6,7⟩
    TouchCode.no_touch (fun i j hij => le_refl 6) CalExit.timedOut 310
    (by set_option maxRecDepth 4000 in decide) (by decide) 0 (by decide) (by decide)).2

/-- C9: whenever a touch event is pending (`panelTouched` set) and
`TouchPanelReadable` is called with a null point pointer, it returns
`touch` — whatever code is recorded for channel 0 and whatever the A2D
filter reports — consumes the pending flag, and a following null-pointer
call with no new event returns `no_touch`. -/
theorem c9_null_pointer_returns_touch (st : ReadableState) (code : TouchCode)
    (ax ay : Int) (hp : st.panelTouched = true) :
    (touchPanelReadable st code ax ay false).2.1 = TouchCode.touch ∧
    (touchPanelReadable st code ax ay false).1.panelTouched = false ∧
    (touchPanelReadable (touchPanelReadable st code ax ay false).1
        TouchCode.no_touch 0 0 false).2.1 = TouchCode.no_touch := by
  refine ⟨?_, ?_, ?_⟩ <;>
    · unfold touchPanelReadable
      split <;> split <;> simp_all [touchPanelReadable]

/-- C9 witness: a pending event with recorded code `release` on a
calibrated state still yields `touch` on the null-pointer call, then
`no_touch` on the next. -/
theorem c9_witness :
    (touchPanelReadable ⟨⟨1,0,0,0,1,0,1⟩, true, TouchCode.release, 0, ⟨3,4⟩, 1⟩
        TouchCode.no_touch 0 0 false).2.1 = TouchCode.touch ∧
    (touchPanelReadable ⟨⟨1,0,0,0,1,0,1⟩, true, TouchCode.release, 0, ⟨3,4⟩, 1⟩
        TouchCode.no_touch 0 0 false).1.panelTouched = false ∧
    (touchPanelReadable
        (touchPanelReadable ⟨⟨1,0,0,0,1,0,1⟩, true, TouchCode.release, 0, ⟨3,4⟩, 1⟩
          TouchCode.no_touch 0 0 false).1
        TouchCode.no_touch 0 0 false).2.1 = TouchCode.no_touch :=
  c9_null_pointer_returns_touch ⟨⟨1,0,0,0,1,0,1⟩, true, TouchCode.release, 0, ⟨3,4⟩, 1⟩
    TouchCode.no_touch 0 0 rfl

/-- C10: `TouchPanelSetMatrix` returns `bad_parameter` and changes neither
the active matrix nor the touch state when its argument is null or has
`Divider = 0`; otherwise it installs all 7 fields and resets the touch
state to `no_touch` — so a successful call always leaves a nonzero
Divider installed. -/
theorem c10_set_matrix (arg : Option tpMatrix_t) (tp : tpMatrix_t) (ts : TouchCode) :
    ((arg = none ∨ (∃ m, arg = some m ∧ m.Divider = 0)) →
      touchPanelSetMatrix arg tp ts = (RetCode.bad_parameter, tp, ts)) ∧
    (∀ m, arg = some m → m.Divider ≠ 0 →
      touchPanelSetMatrix arg tp ts = (RetCode.noerror, m, TouchCode.no_touch)) ∧
    ((touchPanelSetMatrix arg tp ts).1 = RetCode.noerror →
      (touchPanelSetMatrix arg tp ts).2.1.Divider ≠ 0) := by
  refine ⟨?_, ?_, ?_⟩
  · rintro (rfl | ⟨m, rfl, hm⟩)
    · rfl
    · simp [touchPanelSetMatrix, hm]
  · rintro m rfl hm
    simp [touchPanelSetMatrix, hm]
  · intro hret
    match arg with
    | none => exact absurd hret (by simp [touchPanelSetMatrix])
    | some m =>
      by_cases hm : m.Divider = 0
      · exact absurd hret (by simp [touchPanelSetMatrix, hm])
      · simp [touchPanelSetMatrix, hm]

/-- C10 witness: a null argument is rejected without change, a Divider-0
matrix is rejected without change, and a Divider-7 matrix is installed
with the touch state reset. -/
theorem c10_witness :
    touchPanelSetMatrix none ⟨1,2,3,4,5,6,7⟩ TouchCode.held
      = (RetCode.bad_parameter, ⟨1,2,3,4,5,6,7⟩, TouchCode.held) ∧
    touchPanelSetMatrix (some ⟨9,9,9,9,9,9,0⟩) ⟨1,2,3,4,5,6,7⟩ TouchCode.held
      = (RetCode.bad_parameter, ⟨1,2,3,4,5,6,7⟩, TouchCode.held) ∧
    touchPanelSetMatrix (some ⟨9,9,9,9,9,9,7⟩) ⟨1,2,3,4,5,6,7⟩ TouchCode.held
      = (RetCode.noerror, ⟨9,9,9,9,9,9,7⟩, TouchCode.no_touch) :=
  ⟨(c10_set_matrix none ⟨1,2,3,4,5,6,7⟩ TouchCode.held).1 (Or.inl rfl),
   (c10_set_matrix (some ⟨9,9,9,9,9,9,0⟩) ⟨1,2,3,4,5,6,7⟩ TouchCode.held).1
     (Or.inr ⟨⟨9,9,9,9,9,9,0⟩, rfl, rfl⟩),
   (c10_set_matrix (some ⟨9,9,9,9,9,9,7⟩) ⟨1,2,3,4,5,6,7⟩ TouchCode.held).2.1
     ⟨9,9,9,9,9,9,7⟩ rfl (by decide)⟩
